import Mathlib

/-!
Shallow embedding of the luxury-marketing agent backend
(`backend/app/agent/nodes.py`, `backend/app/agent/graph.py`,
`backend/app/core/session.py`, `backend/app/utils/metrics.py`,
`backend/app/data/selectors.py`, `backend/app/data/feature_metadata.py`,
`backend/app/data/mock_users.py`).

Python values are modelled by `PyScalar`/`PyVal` (floats as rationals,
dicts as association lists in insertion order).  Stage functions that call
the external text-generation collaborator are embedded as functions of the
collaborator's parsed reply (`Option …`, with `Option.none` standing for
"the reply could not be parsed as the expected structured payload" or the
call failing, which the code treats identically via its `except` blocks).
A statement or comprehension that would raise `TypeError`/`ValueError` in
Python inside a `try` block is modelled by the documented fallback of that
block (rule skipped, list left unchanged).
-/

/-- Scalar Python values: `int`, `float` (modelled as a rational), `str`,
`bool`, and `None`. -/
inductive PyScalar where
  | int : Int → PyScalar
  | float : ℚ → PyScalar
  | str : String → PyScalar
  | bool : Bool → PyScalar
  | none : PyScalar
deriving Repr, DecidableEq

/-- Python values as they occur in this codebase: scalars and (flat) lists
of scalars.  (Nested lists/dicts never reach the predicate evaluator.) -/
inductive PyVal where
  | scalar : PyScalar → PyVal
  | list : List PyScalar → PyVal
deriving Repr, DecidableEq

/-- Numeric view of a scalar, as used by Python's arithmetic comparisons:
ints and floats are numbers, `bool` is its int value (`True == 1`), strings
and `None` are not numeric (comparing them against a number raises
`TypeError`). -/
def PyScalar.asNum : PyScalar → Option ℚ
  | .int n => some (n : ℚ)
  | .float q => some q
  | .bool b => some (if b then 1 else 0)
  | .str _ => Option.none
  | .none => Option.none

/-- Numeric view of a `PyVal` (lists are never numeric). -/
def PyVal.asNum : PyVal → Option ℚ
  | .scalar s => s.asNum
  | .list _ => Option.none

/-- Python `==` on scalars: numeric values compare by value (so
`True == 1`), strings compare as strings, `None == None`, and values of
unrelated kinds are unequal (Python `==` never raises). -/
def scalarEq (a b : PyScalar) : Bool :=
  match a.asNum, b.asNum with
  | some x, some y => x == y
  | _, _ =>
    match a, b with
    | .str s, .str t => s == t
    | .none, .none => true
    | _, _ => false

/-- Python `==` on values; lists compare elementwise. -/
def pyEq (a b : PyVal) : Bool :=
  match a, b with
  | .scalar x, .scalar y => scalarEq x y
  | .list xs, .list ys =>
      xs.length == ys.length && (List.zip xs ys).all fun p => scalarEq p.1 p.2
  | _, _ => false

/-- Python truthiness of a value (`bool(v)`). -/
def pyTruthy : PyVal → Bool
  | .scalar (.bool b) => b
  | .scalar (.int n) => n != 0
  | .scalar (.float q) => q != 0
  | .scalar (.str s) => s != ""
  | .scalar .none => false
  | .list xs => !xs.isEmpty

/-- An audience record (`MOCK_USERS_WITH_FEATURES` entry): a Python dict
from attribute name to value, kept as an insertion-ordered association
list. -/
abbrev User := List (String × PyVal)

/-- Python `u.get(key, dflt)`. -/
def pyGetD (u : User) (key : String) (dflt : PyVal) : PyVal :=
  match u.lookup key with
  | some v => v
  | Option.none => dflt

/-- Python `u.get(key)` (default `None`). -/
def pyGet (u : User) (key : String) : PyVal :=
  pyGetD u key (.scalar .none)

/-- ASCII whitespace recognised by Python's `\s` and `str.strip()` for the
string literals that occur here. -/
def isPySpace (c : Char) : Bool :=
  c = ' ' || c = '\t' || c = '\n' || c = '\r' || c = '\x0b' || c = '\x0c'

/-- Python `str.strip()`. -/
def pyStrip (cs : List Char) : List Char :=
  ((cs.dropWhile isPySpace).reverse.dropWhile isPySpace).reverse

/-- Second and third alternatives `\s*-\s*` / `\s*,\s*` of the `between`
delimiter regex, after any leading whitespace has already been consumed
(the `\s*` is greedy, and `-` / `,` are not whitespace, so the maximal
whitespace run is the only viable match). -/
def matchDashComma : List Char → Option (List Char)
  | '-' :: cs => some (cs.dropWhile isPySpace)
  | ',' :: cs => some (cs.dropWhile isPySpace)
  | _ => Option.none

/-- Try to match the delimiter regex `\s+and\s+|\s*-\s*|\s*,\s*`
(from `re.split` in `impact_prediction_node`) at the start of `l`,
returning the remainder after the match.  `re` tries the alternatives left
to right; `\s+`/`\s*` are greedy and, since the following literal never
starts with whitespace, the maximal whitespace run is the only viable
match. -/
def matchDelim (l : List Char) : Option (List Char) :=
  match l with
  | [] => Option.none
  | c :: cs =>
    if isPySpace c then
      let rest := cs.dropWhile isPySpace
      match rest with
      | 'a' :: 'n' :: 'd' :: d :: ds =>
        if isPySpace d then some (ds.dropWhile isPySpace)
        else matchDashComma rest
      | _ => matchDashComma rest
    else matchDashComma l

/-- Worker for `pySplit`: scan left to right, splitting at every leftmost
delimiter match.  The fuel argument is the length of the remaining input;
every step consumes at least one character, so the fuel never runs out. -/
def pySplitAux : ℕ → List Char → List Char → List (List Char)
  | 0, acc, _ => [acc.reverse]
  | _ + 1, acc, [] => [acc.reverse]
  | fuel + 1, acc, c :: cs =>
    match matchDelim (c :: cs) with
    | some rest => acc.reverse :: pySplitAux fuel [] rest
    | Option.none => pySplitAux fuel (c :: acc) cs

/-- Python `re.split(r'\s+and\s+|\s*-\s*|\s*,\s*', s)`. -/
def pySplit (cs : List Char) : List (List Char) :=
  pySplitAux cs.length [] cs

/-- Value of a digit string (caller checks the characters are digits). -/
def digitsVal (cs : List Char) : ℕ :=
  cs.foldl (fun n c => 10 * n + (c.toNat - '0'.toNat)) 0

/-- Nonempty all-digit string to a natural number. -/
def digitsToNat (cs : List Char) : Option ℕ :=
  if cs ≠ [] ∧ cs.all Char.isDigit then some (digitsVal cs) else Option.none

/-- Python `int(s)` on the decimal literals that occur here: optional
surrounding whitespace, optional sign, a nonempty digit run (underscore
separators, unicode digits and other bases are out of scope). -/
def pyParseInt (cs : List Char) : Option Int :=
  match pyStrip cs with
  | '+' :: ds => (digitsToNat ds).map Int.ofNat
  | '-' :: ds => (digitsToNat ds).map (fun n => -(n : Int))
  | ds => (digitsToNat ds).map Int.ofNat

/-- Python `float(s)` on the decimal literals that occur here: optional
surrounding whitespace, optional sign, digits with an optional fractional
part (at least one digit overall; exponents and `inf`/`nan` are out of
scope). -/
def pyParseFloat (cs : List Char) : Option ℚ :=
  let t := pyStrip cs
  let signAndBody : ℚ × List Char :=
    match t with
    | '+' :: r => (1, r)
    | '-' :: r => (-1, r)
    | r => (1, r)
  let sign := signAndBody.1
  let body := signAndBody.2
  let ip := body.takeWhile (· ≠ '.')
  match body.dropWhile (· ≠ '.') with
  | [] =>
      if ip ≠ [] ∧ ip.all Char.isDigit then some (sign * (digitsVal ip : ℚ))
      else Option.none
  | _ :: fp =>
      if fp.contains '.' then Option.none
      else if (ip ≠ [] ∨ fp ≠ []) ∧ ip.all Char.isDigit ∧ fp.all Char.isDigit then
        some (sign * ((digitsVal ip : ℚ) + (digitsVal fp : ℚ) / (10 : ℚ) ^ fp.length))
      else Option.none

/-- Endpoint conversion in the textual `between` branch:
`float(p) if '.' in p else int(p)` (`impact_prediction_node`). -/
def parseEndpoint (p : List Char) : Option ℚ :=
  if p.contains '.' then pyParseFloat p
  else (pyParseInt p).map (fun n => (n : ℚ))

/-- Textual `between` value parsing from `impact_prediction_node`:
`re.split(r'\s+and\s+|\s*-\s*|\s*,\s*', value.strip())`, requiring exactly
two parts, each parsed as int or float.  `Option.none` models the
`continue` (rule skipped) on wrong token count or a non-numeric
endpoint. -/
def parseBetweenStr (s : String) : Option (ℚ × ℚ) :=
  match pySplit (pyStrip s.toList) with
  | [p0, p1] =>
    match parseEndpoint p0, parseEndpoint p1 with
    | some a, some b => some (a, b)
    | _, _ => Option.none
  | _ => Option.none

/-- A matched feature rule as built by `feature_matching_node`:
`{feature_name, feature_type, operator, value, description}`. -/
structure MatchedFeature where
  feature_name : String
  feature_type : String
  operator : String
  value : PyVal
  description : String
deriving Repr, DecidableEq

/-- Numeric view of `u.get(name, 0)`, the attribute access used by every
numeric comparison in `impact_prediction_node` (`Option.none` when the
stored value is not numeric, in which case the Python comparison raises
`TypeError`). -/
def attrNum (u : User) (name : String) : Option ℚ :=
  PyVal.asNum (pyGetD u name (.scalar (.int 0)))

/-- Semantics of `filtered_users = [u for u in filtered_users if cond(u)]`
inside the per-rule `try` block: if evaluating the condition raises for
any element (`cond u = Option.none`), the whole comprehension raises
before the assignment happens and the list is left unchanged (the rule is
skipped by the `except` handler); otherwise the list is filtered. -/
def guardedFilter (users : List User) (cond : User → Option Bool) : List User :=
  if users.all (fun u => (cond u).isSome) then
    users.filter (fun u => (cond u).getD false)
  else users

/-- Python `a <= b` on scalars (raises, i.e. `Option.none`, unless both
sides are numeric; string-vs-string order never occurs on this path since
string endpoints have already been converted to numbers). -/
def pyLe (a b : PyScalar) : Option Bool :=
  match a.asNum, b.asNum with
  | some x, some y => some (decide (x ≤ y))
  | _, _ => Option.none

/-- Condition `value[0] <= u.get(name, 0) <= value[1]` with Python's
short-circuit chained comparison. -/
def betweenCond (lo hi : PyScalar) (u : User) (name : String) : Option Bool :=
  match pyGetD u name (.scalar (.int 0)) with
  | .scalar a =>
    match pyLe lo a with
    | some true => pyLe a hi
    | some false => some false
    | Option.none => Option.none
  | .list _ => Option.none

/-- Endpoint conversion in the list-valued `between` branch:
`float(v) if isinstance(v, str) else v` (conversion failure raises
`ValueError` and skips the rule). -/
def coerceListEndpoint : PyScalar → Option PyScalar
  | .str s => (pyParseFloat s.toList).map PyScalar.float
  | v => some v

/-- The `between` branch of `impact_prediction_node` (nodes.py lines
585–611): textual values go through `parseBetweenStr`; 2-element lists
have string endpoints converted by `float`; anything else, or any parse
failure, skips the rule (list returned unchanged). -/
def applyBetween (users : List User) (name : String) (value : PyVal) : List User :=
  match value with
  | .scalar (.str s) =>
    match parseBetweenStr s with
    | some (a, b) =>
        guardedFilter users (fun u => betweenCond (.float a) (.float b) u name)
    | Option.none => users
  | .list [v0, v1] =>
    match coerceListEndpoint v0, coerceListEndpoint v1 with
    | some lo, some hi => guardedFilter users (fun u => betweenCond lo hi u name)
    | _, _ => users
  | _ => users

/-- Value conversion for the scalar numeric operators:
`value = float(value) if '.' in value else int(value)` when the value is a
string (failure raises `ValueError` and skips the rule); other values are
used as they are. -/
def coerceNumericScalar : PyVal → Option PyVal
  | .scalar (.str s) =>
      if s.toList.contains '.' then (pyParseFloat s.toList).map (fun q => .scalar (.float q))
      else (pyParseInt s.toList).map (fun n => .scalar (.int n))
  | v => some v

/-- Ordering condition `u.get(name, 0) OP value` (raises unless both sides
are numeric). -/
def ordCond (cmp : ℚ → ℚ → Bool) (v : PyVal) (u : User) (name : String) : Option Bool :=
  match attrNum u name, v.asNum with
  | some x, some y => some (cmp x y)
  | _, _ => Option.none

/-- The scalar numeric operators of `impact_prediction_node` (lines
613–627).  `==` uses Python equality (never raises); an operator outside
the handled set falls through every branch and leaves the list
unchanged. -/
def applyNumericScalar (users : List User) (name op : String) (value : PyVal) : List User :=
  match coerceNumericScalar value with
  | Option.none => users
  | some v =>
    if op = ">" then guardedFilter users (fun u => ordCond (fun a b => decide (a > b)) v u name)
    else if op = ">=" then guardedFilter users (fun u => ordCond (fun a b => decide (a ≥ b)) v u name)
    else if op = "<" then guardedFilter users (fun u => ordCond (fun a b => decide (a < b)) v u name)
    else if op = "<=" then guardedFilter users (fun u => ordCond (fun a b => decide (a ≤ b)) v u name)
    else if op = "==" then users.filter (fun u => pyEq (pyGetD u name (.scalar (.int 0))) v)
    else users

/-- The categorical operators of `impact_prediction_node` (lines 629–637):
`==` compares `u.get(name)` (default `None`) with the value; `in` wraps a
scalar value into a one-element list and tests membership by `==`. -/
def applyCategorical (users : List User) (name op : String) (value : PyVal) : List User :=
  if op = "==" then users.filter (fun u => pyEq (pyGet u name) value)
  else if op = "in" then
    let elems : List PyScalar :=
      match value with
      | .list xs => xs
      | .scalar s => [s]
    users.filter (fun u => elems.any (fun s => pyEq (pyGet u name) (.scalar s)))
  else users

/-- The boolean branch of `impact_prediction_node` (lines 639–643): a
string value is coerced by membership of its lower-casing in
`['true', '1', 'yes']`, then `u.get(name)` is compared by `==`. -/
def applyBoolean (users : List User) (name : String) (value : PyVal) : List User :=
  let v : PyVal :=
    match value with
    | .scalar (.str s) =>
        .scalar (.bool (s.toLower = "true" || s.toLower = "1" || s.toLower = "yes"))
    | w => w
  users.filter (fun u => pyEq (pyGet u name) v)

/-- Application of one matched feature rule to the current candidate list
(the body of the `for feature in matched_features` loop of
`impact_prediction_node`, including its skip-on-error `except`
handler). -/
def applyFeature (users : List User) (f : MatchedFeature) : List User :=
  if f.feature_type = "numeric" then
    if f.operator = "between" then applyBetween users f.feature_name f.value
    else applyNumericScalar users f.feature_name f.operator f.value
  else if f.feature_type = "categorical" then
    applyCategorical users f.feature_name f.operator f.value
  else if f.feature_type = "boolean" then
    applyBoolean users f.feature_name f.value
  else users

/-- The predicate evaluator: rules applied sequentially (logical AND) to
the population, starting from `MOCK_USERS_WITH_FEATURES.copy()` in the
node itself (the population is a parameter here). -/
def filterUsers (features : List MatchedFeature) (population : List User) : List User :=
  features.foldl applyFeature population

/-- Constant table `TIER_AVG_ORDER_VALUE` from `mock_users.py`. -/
def TIER_AVG_ORDER_VALUE : List (String × ℚ) :=
  [("VVIP", 45000), ("VIP", 22000), ("Member", 12000)]

/-- Constant `AVG_ORDER_VALUE` from `mock_users.py`. -/
def AVG_ORDER_VALUE : ℚ := 18000

/-- Lookup `TIER_AVG_ORDER_VALUE.get(tier, 18000)`. -/
def tierAvgOrder (tier : PyVal) : ℚ :=
  match tier with
  | .scalar (.str s) => (TIER_AVG_ORDER_VALUE.lookup s).getD 18000
  | _ => 18000

/-- Python dict update `d[k] = d.get(k, 0) + 1`: an existing key keeps its
position, a new key is appended (dicts preserve insertion order). -/
def bumpKey (d : List (PyVal × ℕ)) (k : PyVal) : List (PyVal × ℕ) :=
  match d with
  | [] => [(k, 1)]
  | (k0, n) :: rest => if pyEq k0 k then (k0, n + 1) :: rest else (k0, n) :: bumpKey rest k

/-- Tier distribution of the filtered audience
(`tier_distribution[tier] = tier_distribution.get(tier, 0) + 1` over
`u.get("tier", "Member")`). -/
def tierDistribution (users : List User) : List (PyVal × ℕ) :=
  users.foldl (fun d u => bumpKey d (pyGetD u "tier" (.scalar (.str "Member")))) []

/-- Sum `sum(u.get("brand_loyalty_score", 0) for u in filtered_users)`
(the attribute is numeric for every population record; a non-numeric value
would raise in Python). -/
def loyaltySum (users : List User) : ℚ :=
  users.foldl (fun s u => s + ((attrNum u "brand_loyalty_score").getD 0)) 0

/-- Sort key `u.get("score", 0)` (numeric for every population record). -/
def scoreKey (u : User) : ℚ :=
  (attrNum u "score").getD 0

/-- Stable descending insertion for `sorted(..., key=..., reverse=True)`:
an element goes after every already-placed element with a key at least as
large. -/
def insertByScore (u : User) : List User → List User
  | [] => [u]
  | v :: vs => if scoreKey v < scoreKey u then u :: v :: vs else v :: insertByScore u vs

/-- Python `sorted(users, key=lambda u: u.get("score", 0), reverse=True)`
(stable). -/
def sortByScoreDesc (users : List User) : List User :=
  users.foldl (fun acc u => insertByScore u acc) []

/-- Projection of one top user (`{name, tier, score, r12m_spending}`,
each via `u.get(...)` with default `None`). -/
structure TopUser where
  name : PyVal
  tier : PyVal
  score : PyVal
  r12m_spending : PyVal
deriving Repr, DecidableEq

/-- The `sorted_users[:5]` projection of `impact_prediction_node`. -/
def topUsersOf (users : List User) : List TopUser :=
  ((sortByScoreDesc users).take 5).map (fun u =>
    { name := pyGet u "name", tier := pyGet u "tier",
      score := pyGet u "score", r12m_spending := pyGet u "r12m_spending" })

/-- The Prediction Result record built by `impact_prediction_node`. -/
structure PredictionResult where
  audience_size : ℕ
  conversion_rate : ℚ
  estimated_revenue : ℚ
  roi : ℚ
  quality_score : ℚ
  tier_distribution : List (PyVal × ℕ)
  top_users : List TopUser
deriving Repr, DecidableEq

/-- The metric computation of `impact_prediction_node` (nodes.py lines
650–708): filter the population by the matched rules, then either compute
the loyalty-driven conversion rate, tier-based revenue, the
`revenue / (revenue * 0.2)` ROI and the top-5 list (non-empty audience),
or return all-zero metrics with empty distribution and top list (empty
audience; this branch performs no division). -/
def impactPredict (matched_features : List MatchedFeature) (population : List User) :
    PredictionResult :=
  let filtered_users := filterUsers matched_features population
  let audience_size := filtered_users.length
  if audience_size > 0 then
    let avg_loyalty := loyaltySum filtered_users / (audience_size : ℚ)
    let conversion_rate := (5 / 100 : ℚ) * (1 + avg_loyalty / 100)
    let tier_distribution := tierDistribution filtered_users
    let estimated_revenue :=
      tier_distribution.foldl (fun s p => s + (p.2 : ℚ) * conversion_rate * tierAvgOrder p.1) 0
    let roi := if estimated_revenue > 0 then estimated_revenue / (estimated_revenue * (2 / 10)) else 0
    { audience_size := audience_size
      conversion_rate := conversion_rate
      estimated_revenue := estimated_revenue
      roi := roi
      quality_score := avg_loyalty
      tier_distribution := tier_distribution
      top_users := topUsersOf filtered_users }
  else
    { audience_size := audience_size, conversion_rate := 0, estimated_revenue := 0,
      roi := 0, quality_score := 0, tier_distribution := [], top_users := [] }

/-- Metrics calculator `MetricsCalculator.calculate_conversion_rate`
(metrics.py lines 16–38): the size-threshold formula. -/
def calculate_conversion_rate (audience_size : Int) (base_rate : ℚ) : ℚ :=
  if audience_size < 100 then min (base_rate * (18 / 10)) (15 / 100)
  else if audience_size < 300 then min (base_rate * (15 / 10)) (12 / 100)
  else if audience_size < 500 then min (base_rate * (12 / 10)) (10 / 100)
  else base_rate

/-- Metrics calculator `MetricsCalculator.calculate_roi` (metrics.py lines
59–75): `(revenue - cost) / cost * 100`, guarded to 0 for a non-positive
cost. -/
def calculate_roi (estimated_revenue campaign_cost : ℚ) : ℚ :=
  if campaign_cost ≤ 0 then 0
  else (estimated_revenue - campaign_cost) / campaign_cost * 100

/-- Size preference `{"min": ..., "max": ...}`. -/
structure SizePref where
  min : Int
  max : Int
deriving Repr, DecidableEq

/-- The structured user intent (`UserIntent` TypedDict in
`agent/state.py`): business goal, open target-audience map, constraint
strings, KPI and size preference. -/
structure UserIntent where
  business_goal : String
  target_audience : List (String × PyVal)
  constraints : List String
  kpi : String
  size_preference : SizePref
deriving Repr, DecidableEq

/-- The structured payload `intent_recognition_node` asks the collaborator
for; every field is optional because the JSON object may omit any key
(`response.get(...)` with defaults). -/
structure IntentResponse where
  business_goal : Option String
  target_audience : Option (List (String × PyVal))
  constraints : Option (List String)
  kpi : Option String
  size_preference : Option SizePref
  is_clear : Option PyVal
  summary : Option String
deriving Repr, DecidableEq

/-- The partial state update returned by `intent_recognition_node` (the
`except` branch returns no `intent_summary` key, hence the option). -/
structure IntentResult where
  user_intent : UserIntent
  intent_status : String
  intent_summary : Option String
deriving Repr, DecidableEq

/-- The fallback intent of the `except` branch of
`intent_recognition_node`. -/
def defaultUserIntent : UserIntent :=
  { business_goal := "", target_audience := [], constraints := [],
    kpi := "conversion_rate", size_preference := { min := 50, max := 500 } }

/-- Construction of `user_intent` from the parsed collaborator response
(nodes.py lines 166–172): every missing field falls back to a fixed
default (`""`, `{}`, `[]`, `"conversion_rate"`, `{"min": 50, "max": 500}`),
never to the previous intent. -/
def buildUserIntent (r : IntentResponse) : UserIntent :=
  { business_goal := r.business_goal.getD ""
    target_audience := r.target_audience.getD []
    constraints := r.constraints.getD []
    kpi := r.kpi.getD "conversion_rate"
    size_preference := r.size_preference.getD { min := 50, max := 500 } }

/-- Summary extraction (nodes.py lines 175–179): the response's `summary`
if non-empty, else a generated one from the business goal. -/
def intentSummaryOf (r : IntentResponse) (intent : UserIntent) : String :=
  let s := r.summary.getD ""
  if s = "" then "理解您的需求：" ++ intent.business_goal else s

/-- The observable result of `intent_recognition_node` as a function of the
previous intent and the parsed collaborator response (`Option.none` models
a response that could not be parsed as JSON, or a failed collaborator
call; both land in the `except` branch).  The previous intent is only ever
serialized into the prompt sent to the collaborator (nodes.py lines
39–108) — the returned update is built from the response alone (lines
163–187). -/
def intent_recognition_result (previous_intent : Option UserIntent)
    (parsed : Option IntentResponse) : IntentResult :=
  match parsed with
  | Option.none =>
      { user_intent := defaultUserIntent, intent_status := "ambiguous",
        intent_summary := Option.none }
  | some r =>
      let is_clear := r.is_clear.getD (.scalar (.bool true))
      let ui := buildUserIntent r
      { user_intent := ui
        intent_status := if pyTruthy is_clear then "clear" else "ambiguous"
        intent_summary := some (intentSummaryOf r ui) }

/-- The feature catalog `FEATURE_METADATA` (feature_metadata.py), reduced
to the data `feature_matching_node` reads from it: dict key → declared
type, in dict insertion order. -/
def FEATURE_TYPES : List (String × String) :=
  [ ("gender", "categorical"), ("age_group", "categorical"),
    ("city_tier", "categorical"), ("occupation", "categorical"),
    ("tier", "categorical"), ("r12m_spending", "numeric"),
    ("avg_order_value", "numeric"), ("purchase_frequency", "numeric"),
    ("last_purchase_days", "numeric"), ("has_overseas_purchase", "boolean"),
    ("overseas_spending_12m", "numeric"), ("brand_loyalty_score", "numeric"),
    ("style_preference", "categorical"), ("category_browsing_handbag", "numeric"),
    ("category_browsing_jewelry", "numeric"), ("cart_items_pending", "list"),
    ("store_visits_90d", "numeric"), ("online_active_days_30d", "numeric"),
    ("email_open_rate", "numeric"), ("email_click_rate", "numeric"),
    ("event_participation", "numeric"), ("vip_lounge_visits", "numeric"),
    ("personal_shopper_usage", "numeric"), ("app_daily_active", "numeric"),
    ("wechat_interaction", "numeric"), ("live_stream_participation", "numeric"),
    ("last_email_click_days", "numeric"), ("referral_count", "numeric"),
    ("social_engagement", "numeric"), ("member_since_days", "numeric"),
    ("first_purchase_days", "numeric"), ("complaints_open", "numeric"),
    ("return_rate", "numeric"), ("last_campaign_days", "numeric"),
    ("campaign_exposure_30d", "numeric") ]

/-- One candidate rule inside the collaborator's `matched_features` array
(any key may be missing; read with `feat.get(...)`). -/
structure RawFeature where
  feature_name : Option String
  operator : Option String
  value : Option PyVal
  description : Option String
deriving Repr, DecidableEq

/-- The structured payload `feature_matching_node` asks the collaborator
for. -/
structure FeatureResponse where
  is_success : Option PyVal
  matched_features : Option (List RawFeature)
deriving Repr, DecidableEq

/-- Conversion of one raw candidate rule (nodes.py lines 369–379): the
feature name is looked up in `FEATURE_METADATA`; a missing or unknown name
drops the candidate silently, otherwise the declared type is attached. -/
def convertFeature (feat : RawFeature) : Option MatchedFeature :=
  match feat.feature_name with
  | Option.none => Option.none
  | some name =>
    match FEATURE_TYPES.lookup name with
    | Option.none => Option.none
    | some ty =>
        some { feature_name := name, feature_type := ty,
               operator := feat.operator.getD "==",
               value := feat.value.getD (.scalar .none),
               description := feat.description.getD "" }

/-- The partial state update returned by `feature_matching_node`. -/
structure MatchResult where
  matched_features : List MatchedFeature
  match_status : String
deriving Repr, DecidableEq

/-- The observable result of `feature_matching_node` as a function of the
parsed collaborator response (nodes.py lines 350–399; `Option.none` models
a response that cannot be parsed, landing in the `except` branch). -/
def feature_matching_result (parsed : Option FeatureResponse) : MatchResult :=
  match parsed with
  | Option.none => { matched_features := [], match_status := "needs_refinement" }
  | some r =>
      let is_success := r.is_success.getD (.scalar (.bool true))
      { matched_features := (r.matched_features.getD []).filterMap convertFeature
        match_status := if pyTruthy is_success then "success" else "needs_refinement" }

/-- Routing function `route_after_intent_recognition` (graph.py lines
25–39). -/
def route_after_intent_recognition (intent_status : String) : String :=
  if intent_status = "ambiguous" then "ask_clarification" else "feature_matching"

/-- Routing function `route_after_feature_matching` (graph.py lines
42–56). -/
def route_after_feature_matching (match_status : String) : String :=
  if match_status = "needs_refinement" then "request_modification" else "strategy_generation"

/-- The fixed fallback text of `ask_clarification_node`; a failed
collaborator call (`Option.none`) yields it, otherwise the collaborator's
text is the final response. -/
def ask_clarification_response (t : Option String) : String :=
  t.getD "请问您想圈选什么样的人群？能否提供更多细节？"

/-- The fixed fallback text of `request_modification_node`. -/
def request_modification_response (t : Option String) : String :=
  t.getD "抱歉，无法满足您的需求。请重新描述或简化条件。"

/-- The fixed fallback text of `strategy_generation_node`. -/
def strategy_generation_response (t : Option String) : String :=
  t.getD "策略生成失败，请稍后重试。"

/-- Everything one turn of the compiled graph consumes: the previous
intent, the collaborator's (parsed) replies per stage — `Option.none`
marking an unparseable reply or failed call — and the population the
impact-prediction stage filters (the node itself fixes it to
`MOCK_USERS_WITH_FEATURES`). -/
structure TurnInputs where
  previous_intent : Option UserIntent
  intent_response : Option IntentResponse
  clarification_text : Option String
  feature_response : Option FeatureResponse
  modification_text : Option String
  strategy_text : Option String
  final_report : Option String
  population : List User
deriving Repr, DecidableEq

/-- The terminal outcome of one turn: the tagged variant of §6 of the
design (clarification question, modification guidance, or a full result
with strategy text, prediction and the final report, whose fallback
rendering from the prediction fields is kept abstract as
`Option.none`). -/
inductive TurnOutcome where
  | clarification (question : String)
  | modification (guidance : String)
  | success (strategy : String) (prediction : PredictionResult) (report : Option String)
deriving Repr, DecidableEq

/-- Execution of one turn of the compiled graph (`create_agent_graph`,
graph.py lines 63–131): entry at `intent_recognition`, conditional edge to
`ask_clarification` (then END) or `feature_matching`, conditional edge to
`request_modification` (then END) or the unconditional tail
`strategy_generation → impact_prediction → final_analysis → END`.
Returns the list of visited nodes in order, and the terminal outcome. -/
def runTurn (inp : TurnInputs) : List String × TurnOutcome :=
  let ir := intent_recognition_result inp.previous_intent inp.intent_response
  if route_after_intent_recognition ir.intent_status = "ask_clarification" then
    (["intent_recognition", "ask_clarification"],
      .clarification (ask_clarification_response inp.clarification_text))
  else
    let mr := feature_matching_result inp.feature_response
    if route_after_feature_matching mr.match_status = "request_modification" then
      (["intent_recognition", "feature_matching", "request_modification"],
        .modification (request_modification_response inp.modification_text))
    else
      (["intent_recognition", "feature_matching", "strategy_generation",
        "impact_prediction", "final_analysis"],
        .success (strategy_generation_response inp.strategy_text)
          (impactPredict mr.matched_features inp.population)
          inp.final_report)

/-- One conversation turn as stored by the session (`ConversationTurn`,
session.py; the timestamp, audience and metrics fields play no role in the
properties below and are omitted). -/
structure Turn where
  user_input : String
  intent : UserIntent
  response : String
deriving Repr, DecidableEq

/-- The constraint-accumulation loop shared by
`Session.get_consolidated_context` (lines 130–133) and
`MemoryManager.build_context_for_llm` (lines 213–216):
`all_constraints.extend(turn.intent.get("constraints", []))` over the
turns in order. -/
def allConstraints (turns : List Turn) : List String :=
  turns.flatMap (fun t => t.intent.constraints)

/-- Python `list(dict.fromkeys(xs))`: first-appearance-order
deduplication, carrying the set of keys already seen. -/
def dedupKeepFirstAux (seen : List String) : List String → List String
  | [] => []
  | s :: rest =>
    if seen.contains s then dedupKeepFirstAux seen rest
    else s :: dedupKeepFirstAux (s :: seen) rest

/-- Python `list(dict.fromkeys(xs))`. -/
def dedupKeepFirst (xs : List String) : List String :=
  dedupKeepFirstAux [] xs

/-- The accumulated-constraint list built by
`MemoryManager.build_context_for_llm` (session.py lines 213–219, the
multi-turn branch): `list(dict.fromkeys(all_constraints))`. -/
def build_context_constraints (turns : List Turn) : List String :=
  dedupKeepFirst (allConstraints turns)

/-- The constraint list of `Session.get_consolidated_context` (session.py
line 141) is `list(set(all_constraints))`; iteration order of a Python
`set` of strings is unspecified (it depends on the randomized string
hash), so the embedding is the relation admitting every duplicate-free
enumeration of the accumulated constraints. -/
def consolidatedConstraintsRel (turns : List Turn) (out : List String) : Prop :=
  out.Nodup ∧ ∀ s, s ∈ out ↔ s ∈ allConstraints turns

/-- A session as held by `SessionManager` (`Session.__init__`: fresh id,
no turns; timestamps omitted). -/
structure PySession where
  session_id : String
  turns : List Turn
deriving Repr, DecidableEq

/-- The session store `SessionManager._sessions`: a Python dict from id to
session, in insertion order. -/
structure SessionStore where
  sessions : List (String × PySession)
deriving Repr, DecidableEq

/-- Python dict assignment `d[k] = v`: an existing key is updated in
place, a new key is appended. -/
def pyDictSet (d : List (String × PySession)) (k : String) (v : PySession) :
    List (String × PySession) :=
  match d with
  | [] => [(k, v)]
  | (k0, v0) :: rest => if k0 = k then (k0, v) :: rest else (k0, v0) :: pyDictSet rest k v

/-- `SessionManager.create_session` (session.py lines 300–309): construct
`Session()` — whose id is a freshly generated `uuid4` string, modelled as
the parameter `genId` — and register it under its own id. -/
def create_session (genId : String) (st : SessionStore) : PySession × SessionStore :=
  let s : PySession := { session_id := genId, turns := [] }
  (s, ⟨pyDictSet st.sessions s.session_id s⟩)

/-- `SessionManager.get_or_create_session` (session.py lines 352–363):
`if session_id and session_id in self._sessions: return ...` — the guard
uses Python truthiness of the id string — otherwise `create_session()`. -/
def get_or_create_session (session_id : Option String) (genId : String)
    (st : SessionStore) : PySession × SessionStore :=
  match session_id with
  | some s =>
    if s ≠ "" then
      match st.sessions.lookup s with
      | some sess => (sess, st)
      | Option.none => create_session genId st
    else create_session genId st
  | Option.none => create_session genId st

/-- A simplified user record as held by `AudienceSelector` (the
`MOCK_USERS` shape; the display-only fields `recentStore`/`lastVisit` are
omitted). -/
structure SimpleUser where
  id : String
  name : String
  tier : String
  score : Int
  reason : String
deriving Repr, DecidableEq

/-- `AudienceSelector.filter_by_tier` (selectors.py lines 13–25):
`if not tiers: return self.users.copy()` (both `None` and `[]` are falsy),
else keep users whose tier is in the list. -/
def filter_by_tier (users : List SimpleUser) (tiers : Option (List String)) :
    List SimpleUser :=
  match tiers with
  | Option.none => users
  | some ts =>
    if ts.isEmpty then users
    else users.filter (fun u => ts.contains u.tier)

/-- `AudienceSelector.filter_by_behavior` (selectors.py lines 38–67):
starts from `self.users.copy()` (the `users` argument here), then filters
by `browse_frequency` (score threshold) and `engagement_level`
(high/medium/low score bands) when those keys are present; any other key
(e.g. `purchase_history`, documented but unimplemented) is ignored. -/
def filter_by_behavior (users : List SimpleUser)
    (behavior_criteria : List (String × PyVal)) : List SimpleUser :=
  let f1 :=
    match behavior_criteria.lookup "browse_frequency" with
    | some v => users.filter (fun u => decide ((v.asNum.getD 0) ≤ (u.score : ℚ)))
    | Option.none => users
  match behavior_criteria.lookup "engagement_level" with
  | some v =>
    if pyEq v (.scalar (.str "high")) then f1.filter (fun u => decide (90 ≤ u.score))
    else if pyEq v (.scalar (.str "medium")) then
      f1.filter (fun u => decide (80 ≤ u.score) && decide (u.score < 90))
    else if pyEq v (.scalar (.str "low")) then f1.filter (fun u => decide (u.score < 80))
    else f1
  | Option.none => f1

/-- Default tier weights of `AudienceSelector.calculate_match_score`. -/
def tierWeightsDefault : List (String × ℚ) :=
  [("VVIP", 1), ("VIP", 8 / 10), ("Member", 5 / 10)]

/-- Does `pat` start the character list `l`? -/
def charListStartsWith : List Char → List Char → Bool
  | [], _ => true
  | _ :: _, [] => false
  | a :: pat, b :: l => a == b && charListStartsWith pat l

/-- Occurrence of `pat` at any position of `l`. -/
def charListContains (pat : List Char) : List Char → Bool
  | [] => charListStartsWith pat []
  | c :: cs => charListStartsWith pat (c :: cs) || charListContains pat cs

/-- Python substring test `sub in s` (for the nonempty literals used by
`calculate_match_score`). -/
def pyInStr (sub s : String) : Bool :=
  charListContains sub.toList s.toList

/-- `AudienceSelector.calculate_match_score` (selectors.py lines 69–107)
with its default weights: tier weight × 50, plus the base score scaled by
`0.3 / 100`, plus keyword bonuses from the `reason` text scaled by
`0.7 / 100`, capped at 100. -/
def calculate_match_score (u : SimpleUser) : ℚ :=
  let tier_score := ((tierWeightsDefault.lookup u.tier).getD (5 / 10)) * 50
  let base_score := (u.score : ℚ) * ((3 / 10) / 100)
  let b1 : ℚ := if pyInStr "购买" u.reason then 20 else 0
  let b2 := if pyInStr "浏览" u.reason then b1 + 15 else b1
  let b3 := if pyInStr "加购" u.reason then b2 + 15 else b2
  let b4 := if pyInStr "参加" u.reason then b3 + 10 else b3
  let behavior_score := b4 * ((7 / 10) / 100)
  min 100 (tier_score + base_score + behavior_score)

/-- A user together with the `matchScore` attached by `rank_users`. -/
structure RankedUser where
  user : SimpleUser
  matchScore : ℚ
deriving Repr, DecidableEq

/-- Stable descending insertion (Python `list.sort(key=..., reverse=True)`
is stable; among equal scores the original order is kept). -/
def insertRanked (x : RankedUser) : List RankedUser → List RankedUser
  | [] => [x]
  | y :: ys => if y.matchScore < x.matchScore then x :: y :: ys else y :: insertRanked x ys

/-- `AudienceSelector.rank_users` (selectors.py lines 109–141): attach
`matchScore` (recalculated or the raw score), sort by it descending,
return the first `limit`. -/
def rank_users (users : List SimpleUser) (limit : ℕ) (recalculate_score : Bool) :
    List RankedUser :=
  let ranked := users.map (fun u =>
    { user := u
      matchScore := if recalculate_score then calculate_match_score u else (u.score : ℚ) })
  (ranked.foldl (fun acc x => insertRanked x acc) []).take limit

/-- The intent dictionary consumed by
`AudienceSelector.select_for_campaign` (each key read with
`intent.get(..., default)`). -/
structure CampaignIntent where
  target_tiers : Option (List String)
  behavior_filters : Option (List (String × PyVal))
  size_preference : Option SizePref
deriving Repr, DecidableEq

/-- `AudienceSelector.select_for_campaign` (selectors.py lines 143–185):
step 1 filters the pool by tier; step 2, when `behavior_filters` is a
non-empty dict, REPLACES that result with `filter_by_behavior`, which
restarts from the full pool `self.users`; step 3 ranks and truncates to
`size_preference["max"]`. -/
def select_for_campaign (selfUsers : List SimpleUser) (intent : CampaignIntent)
    (apply_recalculation : Bool) : List RankedUser :=
  let tiers := intent.target_tiers.getD ["VVIP", "VIP", "Member"]
  let filtered := filter_by_tier selfUsers (some tiers)
  let behavior_filters := intent.behavior_filters.getD []
  let filtered :=
    if behavior_filters.isEmpty then filtered
    else filter_by_behavior selfUsers behavior_filters
  let size_preference := intent.size_preference.getD { min := 50, max := 500 }
  rank_users filtered size_preference.max.toNat apply_recalculation

/-- Spec §4.4, quality-driven variant, in the spec's words: "base rate
scaled by `(1 + avg_quality_score/100)`" with the 5% base rate. -/
def spec_quality_variant_rate (avg_quality_score : ℚ) : ℚ :=
  (5 / 100) * (1 + avg_quality_score / 100)

/-- Spec §4.4, size-threshold variant, in the spec's words: "a base rate
(5%) scaled upward as audience size shrinks below fixed thresholds (under
100 → ×1.8 capped at 15%; under 300 → ×1.5 capped at 12%; under 500 → ×1.2
capped at 10%; else base rate)". -/
def spec_size_threshold_rate (audience_size : Int) : ℚ :=
  if audience_size < 100 then min ((5 / 100) * (18 / 10)) (15 / 100)
  else if audience_size < 300 then min ((5 / 100) * (15 / 10)) (12 / 100)
  else if audience_size < 500 then min ((5 / 100) * (12 / 10)) (10 / 100)
  else 5 / 100

/-- Concrete population record: a VIP member with brand-loyalty score
50. -/
def u50 : User :=
  [("brand_loyalty_score", .scalar (.int 50)), ("tier", .scalar (.str "VIP")),
   ("score", .scalar (.int 85))]

/-- Concrete record with a single numeric `age` attribute. -/
def uAge (n : Int) : User := [("age", .scalar (.int n))]

/-- Concrete numeric `between` rule with textual value `"30 and 90"`. -/
def ruleBetween3090 : MatchedFeature :=
  { feature_name := "age", feature_type := "numeric", operator := "between",
    value := .scalar (.str "30 and 90"), description := "年龄在30到90之间" }

/-- Concrete numeric `between` rule with the unparsable value `"abc"`. -/
def ruleBetweenBad : MatchedFeature :=
  { feature_name := "age", feature_type := "numeric", operator := "between",
    value := .scalar (.str "abc"), description := "无法解析" }

/-- Concrete numeric `>` rule on `age`. -/
def ruleAgeGt50 : MatchedFeature :=
  { feature_name := "age", feature_type := "numeric", operator := ">",
    value := .scalar (.int 50), description := "年龄大于50" }

/-- Concrete prior intent of an earlier turn. -/
def c1Prev : UserIntent :=
  { business_goal := "提升转化率", target_audience := [("tier", .list [.str "VIP"])],
    constraints := ["排除近期已购买用户"], kpi := "revenue",
    size_preference := { min := 100, max := 500 } }

/-- Concrete parsed collaborator response leaving `business_goal` and
`kpi` unset. -/
def c1Resp : IntentResponse :=
  { business_goal := Option.none, target_audience := some [("gender", .scalar (.str "F"))],
    constraints := some ["只要女性客户"], kpi := Option.none, size_preference := Option.none,
    is_clear := some (.scalar (.bool true)), summary := some "圈选女性客户" }

/-- Concrete parsed collaborator response with every field unset. -/
def c1AllNone : IntentResponse :=
  { business_goal := Option.none, target_audience := Option.none, constraints := Option.none,
    kpi := Option.none, size_preference := Option.none, is_clear := Option.none,
    summary := Option.none }

/-- Concrete parsed intent response whose `is_clear` key is absent. -/
def c2IntentResp : IntentResponse :=
  { business_goal := some "促进复购", target_audience := some [], constraints := some [],
    kpi := some "revenue", size_preference := Option.none, is_clear := Option.none,
    summary := some "促进复购" }

/-- Concrete parsed feature response whose `is_success` key is absent. -/
def c2FeatResp : FeatureResponse :=
  { is_success := Option.none, matched_features := some [] }

/-- Concrete turn with constraints `["a", "b"]`. -/
def c5Turn : Turn :=
  { user_input := "第一轮", intent := { defaultUserIntent with constraints := ["a", "b"] },
    response := "回复" }

/-- Concrete follow-up turn with constraints `["b", "c"]`. -/
def c5Turn2 : Turn :=
  { user_input := "第二轮", intent := { defaultUserIntent with constraints := ["b", "c"] },
    response := "回复" }

/-- Concrete turn inputs whose intent-stage collaborator reply is
unparseable (hence status `ambiguous`). -/
def c8Inputs : TurnInputs :=
  { previous_intent := Option.none, intent_response := Option.none,
    clarification_text := Option.none, feature_response := some c2FeatResp,
    modification_text := Option.none, strategy_text := Option.none,
    final_report := Option.none, population := [u50] }

/-- Concrete selector pool member of tier `Member`. -/
def demoUserC9 : SimpleUser :=
  { id := "4", name := "张女士", tier := "Member", score := 88, reason := "收藏了春季新款" }

/-- Concrete campaign intent requesting tier `VVIP` only, with a non-empty
behavior-filter dict. -/
def demoIntentC9 : CampaignIntent :=
  { target_tiers := some ["VVIP"],
    behavior_filters := some [("browse_frequency", .scalar (.int 0))],
    size_preference := some { min := 1, max := 10 } }

theorem guardedFilter_eq (users : List User) (cond : User → Option Bool) (g : User → Bool)
    (h : ∀ u ∈ users, cond u = some (g u)) :
    guardedFilter users cond = users.filter g := by
  unfold guardedFilter
  rw [if_pos]
  · exact List.filter_congr fun u hu => by rw [h u hu]; rfl
  · exact List.all_eq_true.2 fun u hu => by rw [h u hu]; rfl

theorem betweenCond_num (lo hi : ℚ) (u : User) (name : String)
    (h : (attrNum u name).isSome) :
    betweenCond (.float lo) (.float hi) u name =
      some (decide (lo ≤ (attrNum u name).getD 0) && decide ((attrNum u name).getD 0 ≤ hi)) := by
  unfold attrNum at *
  unfold betweenCond
  cases hv : pyGetD u name (.scalar (.int 0)) with
  | list xs => rw [hv] at h; simp [PyVal.asNum] at h
  | scalar a =>
    rw [hv] at h
    cases ha : a.asNum with
    | none => simp [PyVal.asNum, ha] at h
    | some x =>
      simp only [PyVal.asNum, ha, Option.getD_some, pyLe]
      by_cases hlo : lo ≤ x
      · simp [PyScalar.asNum, hlo]
      · simp [PyScalar.asNum, hlo]

theorem applyFeature_badBetween (users : List User) (f : MatchedFeature) (s : String)
    (hty : f.feature_type = "numeric") (hop : f.operator = "between")
    (hv : f.value = .scalar (.str s)) (hp : parseBetweenStr s = Option.none) :
    applyFeature users f = users := by
  simp [applyFeature, hty, hop, applyBetween, hv, hp]

theorem mem_dedupKeepFirstAux (x : String) (l : List String) :
    ∀ seen, x ∈ dedupKeepFirstAux seen l ↔ x ∈ l ∧ x ∉ seen := by
  induction l with
  | nil => intro seen; simp [dedupKeepFirstAux]
  | cons s rest ih =>
    intro seen
    simp only [dedupKeepFirstAux]
    by_cases hs : s ∈ seen
    · rw [if_pos (by simpa using hs), ih]
      simp only [List.mem_cons]
      constructor
      · rintro ⟨h1, h2⟩; exact ⟨Or.inr h1, h2⟩
      · rintro ⟨h1 | h1, h2⟩
        · exact absurd (h1 ▸ hs) h2
        · exact ⟨h1, h2⟩
    · rw [if_neg (by simpa using hs)]
      simp only [List.mem_cons, ih, not_or]
      by_cases hxs : x = s
      · subst hxs; simp [hs]
      · simp [hxs]

theorem nodup_dedupKeepFirstAux (l : List String) :
    ∀ seen, (dedupKeepFirstAux seen l).Nodup := by
  induction l with
  | nil => intro seen; simp [dedupKeepFirstAux]
  | cons s rest ih =>
    intro seen
    simp only [dedupKeepFirstAux]
    by_cases hs : s ∈ seen
    · rw [if_pos (by simpa using hs)]; exact ih seen
    · rw [if_neg (by simpa using hs)]
      refine List.nodup_cons.2 ⟨?_, ih _⟩
      rw [mem_dedupKeepFirstAux]
      rintro ⟨_, hn⟩
      exact hn (List.mem_cons_self s _)

theorem sublist_dedupKeepFirstAux (l : List String) :
    ∀ seen, List.Sublist (dedupKeepFirstAux seen l) l := by
  induction l with
  | nil => intro seen; simp [dedupKeepFirstAux]
  | cons s rest ih =>
    intro seen
    simp only [dedupKeepFirstAux]
    by_cases hs : s ∈ seen
    · rw [if_pos (by simpa using hs)]
      exact (ih seen).cons s
    · rw [if_neg (by simpa using hs)]
      exact (ih (s :: seen)).cons₂ s

theorem lookup_pyDictSet_self (d : List (String × PySession)) (k : String) (v : PySession) :
    (pyDictSet d k v).lookup k = some v := by
  induction d with
  | nil => simp [pyDictSet, List.lookup]
  | cons p rest ih =>
    obtain ⟨k0, v0⟩ := p
    simp only [pyDictSet]
    by_cases hk : k0 = k
    · rw [if_pos hk]; subst hk; simp [List.lookup]
    · rw [if_neg hk]
      simp only [List.lookup]
      cases hbeq : (k == k0) with
      | true => exact absurd (eq_of_beq hbeq).symm hk
      | false => exact ih

theorem lookup_pyDictSet_ne (d : List (String × PySession)) (k : String) (v : PySession)
    (s : String) (h : s ≠ k) : (pyDictSet d k v).lookup s = d.lookup s := by
  induction d with
  | nil =>
    simp only [pyDictSet, List.lookup]
    rw [show (s == k) = false from beq_eq_false_iff_ne.2 h]
  | cons p rest ih =>
    obtain ⟨k0, v0⟩ := p
    simp only [pyDictSet]
    by_cases hk : k0 = k
    · rw [if_pos hk]
      simp only [List.lookup]
      rw [show (s == k0) = false from beq_eq_false_iff_ne.2 (hk ▸ h)]
    · rw [if_neg hk]
      simp only [List.lookup]
      cases hbeq : (s == k0) with
      | true => rfl
      | false => exact ih

/-- C1 counterexample: with the prior intent `c1Prev` (business goal
"提升转化率", KPI "revenue") and a new extraction `c1Resp` that leaves
`business_goal` and `kpi` unset, the intent-recognition stage does NOT
give those fields the prior intent's values: it falls back to the fixed
defaults `""` and `"conversion_rate"`.  The claimed field-level
default-to-prior merge by the system therefore fails at this input. -/
theorem C1_counterexample :
    c1Prev.business_goal = "提升转化率" ∧ c1Prev.kpi = "revenue" ∧
    c1Resp.business_goal = Option.none ∧ c1Resp.kpi = Option.none ∧
    (intent_recognition_result (some c1Prev) (some c1Resp)).user_intent.business_goal = "" ∧
    (intent_recognition_result (some c1Prev) (some c1Resp)).user_intent.business_goal ≠
      c1Prev.business_goal ∧
    (intent_recognition_result (some c1Prev) (some c1Resp)).user_intent.kpi =
      "conversion_rate" ∧
    (intent_recognition_result (some c1Prev) (some c1Resp)).user_intent.kpi ≠ c1Prev.kpi := by
  refine ⟨rfl, rfl, rfl, rfl, rfl, ?_, rfl, ?_⟩ <;> decide

/-- C1 amended: the intent-recognition stage performs no merge itself —
its returned update is independent of the prior intent, which is only
embedded into the prompt so that the collaborator does the merging — and
every field missing from the collaborator's parsed response falls back to
a fixed default (`""`, `{}`, `[]`, `"conversion_rate"`,
`{"min": 50, "max": 500}`), not to the prior intent's value. -/
theorem C1_no_system_merge (p : Option UserIntent) (r : IntentResponse)
    (hg : r.business_goal = Option.none) (ha : r.target_audience = Option.none)
    (hc : r.constraints = Option.none) (hk : r.kpi = Option.none)
    (hs : r.size_preference = Option.none) :
    (∀ parsed, intent_recognition_result p parsed = intent_recognition_result Option.none parsed) ∧
    (intent_recognition_result p (some r)).user_intent = defaultUserIntent := by
  refine ⟨fun parsed => rfl, ?_⟩
  simp [intent_recognition_result, buildUserIntent, hg, ha, hc, hk, hs, defaultUserIntent]

/-- Witness for `C1_no_system_merge` at the concrete response with every
field unset and the concrete prior intent `c1Prev`. -/
theorem C1_witness :
    (∀ parsed, intent_recognition_result (some c1Prev) parsed =
      intent_recognition_result Option.none parsed) ∧
    (intent_recognition_result (some c1Prev) (some c1AllNone)).user_intent =
      defaultUserIntent :=
  C1_no_system_merge (some c1Prev) c1AllNone rfl rfl rfl rfl rfl

/-- C2: if the collaborator's reply parses but the declared boolean flag
is absent, the stage proceeds optimistically (`is_clear` absent → status
"clear"; `is_success` absent → status "success"); if the reply cannot be
parsed as the expected payload, the stage yields the pessimistic status
("ambiguous" / "needs_refinement"). -/
theorem C2_flag_defaults (p : Option UserIntent) (ri : IntentResponse) (rf : FeatureResponse)
    (hi : ri.is_clear = Option.none) (hf : rf.is_success = Option.none) :
    (intent_recognition_result p (some ri)).intent_status = "clear" ∧
    (intent_recognition_result p Option.none).intent_status = "ambiguous" ∧
    (feature_matching_result (some rf)).match_status = "success" ∧
    (feature_matching_result Option.none).match_status = "needs_refinement" := by
  refine ⟨?_, rfl, ?_, rfl⟩
  · simp [intent_recognition_result, hi, pyTruthy]
  · simp [feature_matching_result, hf, pyTruthy]

/-- Witness for `C2_flag_defaults` at concrete responses with the flags
absent. -/
theorem C2_witness :
    (intent_recognition_result Option.none (some c2IntentResp)).intent_status = "clear" ∧
    (intent_recognition_result Option.none Option.none).intent_status = "ambiguous" ∧
    (feature_matching_result (some c2FeatResp)).match_status = "success" ∧
    (feature_matching_result Option.none).match_status = "needs_refinement" :=
  C2_flag_defaults Option.none c2IntentResp c2FeatResp rfl rfl

/-- C3: the textual `between` values `"30 and 90"`, `"30-90"` and
`"30,90"` all parse to the pair (30, 90); a rule with such a value keeps
exactly the records whose attribute lies in the closed interval [30, 90];
an unparsable value such as `"abc"` parses to nothing and the evaluator
skips that single rule (no exception), leaving every remaining rule in the
list applied exactly as if the bad rule were absent. -/
theorem C3_between_rule (population : List User) (name : String)
    (pre post : List MatchedFeature) (f : MatchedFeature) (s : String)
    (hnum : ∀ u ∈ population, (attrNum u name).isSome)
    (hty : f.feature_type = "numeric") (hop : f.operator = "between")
    (hv : f.value = .scalar (.str s)) (hp : parseBetweenStr s = Option.none) :
    parseBetweenStr "30 and 90" = some (30, 90) ∧
    parseBetweenStr "30-90" = some (30, 90) ∧
    parseBetweenStr "30,90" = some (30, 90) ∧
    parseBetweenStr "abc" = Option.none ∧
    applyFeature population
      { feature_name := name, feature_type := "numeric", operator := "between",
        value := .scalar (.str "30 and 90"), description := "" } =
      population.filter (fun u =>
        decide (30 ≤ (attrNum u name).getD 0) && decide ((attrNum u name).getD 0 ≤ 90)) ∧
    filterUsers (pre ++ f :: post) population = filterUsers (pre ++ post) population := by
  refine ⟨by decide, by decide, by decide, by decide, ?_, ?_⟩
  · have h3090 : parseBetweenStr "30 and 90" = some (30, 90) := by decide
    simp only [applyFeature, applyBetween, if_pos rfl, h3090]
    exact guardedFilter_eq population _ _ (fun u hu => betweenCond_num 30 90 u name (hnum u hu))
  · have hskip : ∀ us, applyFeature us f = us := fun us =>
      applyFeature_badBetween us f s hty hop hv hp
    unfold filterUsers
    rw [List.foldl_append, List.foldl_append, List.foldl_cons, hskip]

/-- Witness for `C3_between_rule`: a two-record population with ages 29
and 64; the `"30 and 90"` rule keeps only the 64-year record, and the
unparsable `"abc"` rule in front of a `> 50` rule is skipped while the
`> 50` rule still applies. -/
theorem C3_witness :
    applyFeature [uAge 29, uAge 64]
      { feature_name := "age", feature_type := "numeric", operator := "between",
        value := .scalar (.str "30 and 90"), description := "" } =
      List.filter (fun u =>
        decide (30 ≤ (attrNum u "age").getD 0) && decide ((attrNum u "age").getD 0 ≤ 90))
        [uAge 29, uAge 64] ∧
    filterUsers ([] ++ ruleBetweenBad :: [ruleAgeGt50]) [uAge 29, uAge 64] =
      filterUsers ([] ++ [ruleAgeGt50]) [uAge 29, uAge 64] :=
  ⟨(C3_between_rule [uAge 29, uAge 64] "age" [] [ruleAgeGt50] ruleBetweenBad "abc"
      (by decide) rfl rfl rfl (by decide)).2.2.2.2.1,
   (C3_between_rule [uAge 29, uAge 64] "age" [] [ruleAgeGt50] ruleBetweenBad "abc"
      (by decide) rfl rfl rfl (by decide)).2.2.2.2.2⟩

/-- C4: a rule list matching zero population records yields the all-zero
Prediction Result: size 0, conversion rate 0, revenue 0, ROI 0, quality 0,
empty tier distribution, empty top list.  (The empty-audience branch of
`impact_prediction_node` is built from literals and performs no division;
the averages and the ROI quotient only occur in the `audience_size > 0`
branch.) -/
theorem C4_empty_audience (features : List MatchedFeature) (population : List User)
    (h : filterUsers features population = []) :
    impactPredict features population =
      { audience_size := 0, conversion_rate := 0, estimated_revenue := 0, roi := 0,
        quality_score := 0, tier_distribution := [], top_users := [] } := by
  unfold impactPredict
  rw [h]
  rfl

/-- Witness for `C4_empty_audience`: the one-record population `[u50]`
with a rule requiring `age > 50` (the record has no such attribute, so
`u.get` defaults to 0 and nothing matches). -/
theorem C4_witness :
    impactPredict [ruleAgeGt50] [u50] =
      { audience_size := 0, conversion_rate := 0, estimated_revenue := 0, roi := 0,
        quality_score := 0, tier_distribution := [], top_users := [] } :=
  C4_empty_audience [ruleAgeGt50] [u50] (by decide)

/-- C5 counterexample: after one turn with constraints `["a", "b"]`, the
set-based constraint list of `Session.get_consolidated_context`
(`list(set(...))`) admits the enumeration `["b", "a"]`, which is not the
first-appearance order `["a", "b"]` that the claim requires of the exposed
list; only `build_context_for_llm` (`list(dict.fromkeys(...))`) produces
the in-order list. -/
theorem C5_counterexample :
    consolidatedConstraintsRel [c5Turn] ["b", "a"] ∧
    ["b", "a"] ≠ build_context_constraints [c5Turn] ∧
    build_context_constraints [c5Turn] = ["a", "b"] := by
  refine ⟨⟨by decide, ?_⟩, by decide, by decide⟩
  intro s
  have hall : allConstraints [c5Turn] = ["a", "b"] := by decide
  rw [hall]
  simp only [List.mem_cons, List.not_mem_nil, or_false]
  tauto

/-- C5 amended: the constraint list built for the collaborator
(`build_context_for_llm`) is the first-appearance-order deduplication of
the concatenation of all turns' constraints — duplicate-free, a
subsequence of the append-order concatenation, with exactly the
accumulated constraints as members, and monotone under appending a turn —
while the consolidated campaign context (`get_consolidated_context`)
exposes the same set of strings without duplicates but in an unspecified
(set-iteration) order. -/
theorem C5_constraint_accumulation (turns : List Turn) (t : Turn) (x : String) :
    build_context_constraints turns = dedupKeepFirst (allConstraints turns) ∧
    (build_context_constraints turns).Nodup ∧
    List.Sublist (build_context_constraints turns) (allConstraints turns) ∧
    (∀ s, s ∈ build_context_constraints turns ↔ s ∈ allConstraints turns) ∧
    (x ∈ build_context_constraints turns → x ∈ build_context_constraints (turns ++ [t])) ∧
    (∀ out, consolidatedConstraintsRel turns out →
      out.Nodup ∧ ∀ s, s ∈ out ↔ s ∈ build_context_constraints turns) := by
  have hmem : ∀ (s : String) (l : List String), s ∈ dedupKeepFirst l ↔ s ∈ l := by
    intro s l
    rw [dedupKeepFirst, mem_dedupKeepFirstAux]
    simp
  refine ⟨rfl, nodup_dedupKeepFirstAux _ _, sublist_dedupKeepFirstAux _ _,
    fun s => hmem s _, ?_, ?_⟩
  · intro hx
    have hx2 : x ∈ allConstraints turns := (hmem x _).1 hx
    have happ : allConstraints (turns ++ [t]) =
        allConstraints turns ++ t.intent.constraints := by
      simp [allConstraints]
    refine (hmem x _).2 ?_
    rw [happ]
    exact List.mem_append_left _ hx2
  · intro out hrel
    exact ⟨hrel.1, fun s => (hrel.2 s).trans (hmem s _).symm⟩

/-- Witness for `C5_constraint_accumulation`: with the concrete turns
`c5Turn` (constraints `["a", "b"]`) and `c5Turn2` (constraints
`["b", "c"]`), the constraint `"a"` of the first turn survives appending
the second, and the first turn's built list is duplicate-free. -/
theorem C5_witness :
    "a" ∈ build_context_constraints ([c5Turn] ++ [c5Turn2]) ∧
    (build_context_constraints [c5Turn]).Nodup :=
  ⟨(C5_constraint_accumulation [c5Turn] c5Turn2 "a").2.2.2.2.1 (by decide),
   (C5_constraint_accumulation [c5Turn] c5Turn2 "a").2.1⟩

/-- C6 counterexample: on the one-record audience `[u50]` (loyalty 50),
the impact-prediction stage reports a conversion rate of 7.5% while the
metrics calculator, on the same audience size with its default 5% base
rate, reports 9% — the two stages do not use one formula. -/
theorem C6_counterexample :
    (impactPredict [] [u50]).conversion_rate ≠
      calculate_conversion_rate ((impactPredict [] [u50]).audience_size : Int) (5 / 100) := by
  simp +decide [impactPredict, filterUsers, loyaltySum, attrNum, pyGetD, PyVal.asNum,
    PyScalar.asNum, u50, List.lookup, calculate_conversion_rate]
  norm_num

/-- C6 amended: the two conversion-rate variants coexist instead of one
being applied consistently — the impact-prediction stage implements the
quality-driven variant (base 5% × (1 + avg loyalty / 100), the average
being its reported quality score) while `calculate_conversion_rate`
implements the size-threshold variant. -/
theorem C6_two_formulas (features : List MatchedFeature) (population : List User) (n : Int)
    (h : filterUsers features population ≠ []) :
    (impactPredict features population).conversion_rate =
      spec_quality_variant_rate ((impactPredict features population).quality_score) ∧
    calculate_conversion_rate n (5 / 100) = spec_size_threshold_rate n := by
  constructor
  · have hlen : (filterUsers features population).length > 0 :=
      List.length_pos.2 h
    simp only [impactPredict]
    rw [if_pos hlen]
    rfl
  · rfl

/-- Witness for `C6_two_formulas` at the concrete audience `[u50]` and
size 1. -/
theorem C6_witness :
    (impactPredict [] [u50]).conversion_rate =
      spec_quality_variant_rate ((impactPredict [] [u50]).quality_score) ∧
    calculate_conversion_rate 1 (5 / 100) = spec_size_threshold_rate 1 :=
  C6_two_formulas [] [u50] 1 (by decide)

/-- C7: the ROI reported by the impact-prediction stage is the constant 5
whenever the estimated revenue is positive (the formula is
`revenue / (revenue * 0.2)`), and 0 whenever the estimated revenue is
zero, independent of the audience's composition. -/
theorem C7_roi_constant (features : List MatchedFeature) (population : List User) :
    ((impactPredict features population).estimated_revenue > 0 →
      (impactPredict features population).roi = 5) ∧
    ((impactPredict features population).estimated_revenue = 0 →
      (impactPredict features population).roi = 0) := by
  have key : ∀ E : ℚ, (E > 0 → (if E > 0 then E / (E * (2 / 10)) else 0) = 5) ∧
      (E = 0 → (if E > 0 then E / (E * (2 / 10)) else 0) = 0) := by
    intro E
    constructor
    · intro hE
      rw [if_pos hE, div_eq_iff (ne_of_gt (by positivity))]
      ring
    · intro hE
      simp [hE]
  simp only [impactPredict]
  by_cases hlen : (filterUsers features population).length > 0
  · rw [if_pos hlen]
    exact key _
  · rw [if_neg hlen]
    exact ⟨fun hE => absurd hE (by norm_num), fun _ => rfl⟩

/-- Witness for `C7_roi_constant`: the audience `[u50]` has estimated
revenue 1650 > 0, so its reported ROI is exactly 5. -/
theorem C7_witness : (impactPredict [] [u50]).roi = 5 :=
  (C7_roi_constant [] [u50]).1 (by
    simp +decide [impactPredict, filterUsers, loyaltySum, attrNum, pyGetD, PyVal.asNum,
      PyScalar.asNum, u50, List.lookup, tierDistribution, bumpKey, tierAvgOrder,
      TIER_AVG_ORDER_VALUE, List.foldl]
    norm_num)

/-- C8: whenever the intent-recognition stage reports status "ambiguous",
the turn ends at the Clarification terminal: the clarification question is
the final response, and the feature-matching stage (and every later
stage) is not visited. -/
theorem C8_ambiguous_terminal (inp : TurnInputs)
    (h : (intent_recognition_result inp.previous_intent inp.intent_response).intent_status =
      "ambiguous") :
    runTurn inp = (["intent_recognition", "ask_clarification"],
      .clarification (ask_clarification_response inp.clarification_text)) ∧
    "feature_matching" ∉ (runTurn inp).1 ∧
    "request_modification" ∉ (runTurn inp).1 ∧
    "strategy_generation" ∉ (runTurn inp).1 ∧
    "impact_prediction" ∉ (runTurn inp).1 ∧
    "final_analysis" ∉ (runTurn inp).1 := by
  have heq : runTurn inp = (["intent_recognition", "ask_clarification"],
      .clarification (ask_clarification_response inp.clarification_text)) := by
    simp [runTurn, route_after_intent_recognition, h]
  refine ⟨heq, ?_, ?_, ?_, ?_, ?_⟩ <;> rw [heq] <;> simp

/-- Witness for `C8_ambiguous_terminal`: the concrete inputs `c8Inputs`
(unparseable intent reply, hence status "ambiguous", and a failed
clarification call, hence the fixed fallback question as the final
response). -/
theorem C8_witness :
    runTurn c8Inputs = (["intent_recognition", "ask_clarification"],
      .clarification "请问您想圈选什么样的人群？能否提供更多细节？") :=
  (C8_ambiguous_terminal c8Inputs rfl).1

/-- C9: whenever the campaign intent carries a non-empty
`behavior_filters` dict, `select_for_campaign` discards the tier-filtered
candidate set of step 1 and ranks `filter_by_behavior` applied to the FULL
pool, so the tier filter and the behavior filter are never applied
together; concretely, with target tier `["VVIP"]` and a behavior filter,
the returned audience contains a `Member`-tier user that the tier filter
alone would have excluded. -/
theorem C9_behavior_discards_tier (pool : List SimpleUser) (intent : CampaignIntent)
    (bf : List (String × PyVal)) (recalc : Bool)
    (hbf : intent.behavior_filters = some bf) (hne : bf ≠ []) :
    select_for_campaign pool intent recalc =
      rank_users (filter_by_behavior pool bf)
        (intent.size_preference.getD { min := 50, max := 500 }).max.toNat recalc ∧
    (select_for_campaign [demoUserC9] demoIntentC9 true).map (fun r => r.user.tier) =
      ["Member"] ∧
    demoIntentC9.target_tiers = some ["VVIP"] ∧
    filter_by_tier [demoUserC9] (some ["VVIP"]) = [] := by
  refine ⟨?_, by decide, rfl, by decide⟩
  have hbfne : bf.isEmpty = false := by
    cases bf with
    | nil => exact absurd rfl hne
    | cons a l => rfl
  simp [select_for_campaign, hbf, hbfne]

/-- Witness for `C9_behavior_discards_tier` at the concrete pool
`[demoUserC9]` and intent `demoIntentC9`. -/
theorem C9_witness :
    select_for_campaign [demoUserC9] demoIntentC9 true =
      rank_users (filter_by_behavior [demoUserC9] [("browse_frequency", .scalar (.int 0))])
        (10 : Int).toNat true :=
  (C9_behavior_discards_tier [demoUserC9] demoIntentC9
    [("browse_frequency", .scalar (.int 0))] true rfl (by decide)).1

/-- C10: presenting a session id that is not a key of the store yields a
freshly created empty session registered under a newly generated id; the
presented id itself is never registered, and (provided the generated uuid
differs from it, which is what uuid generation guarantees in practice) the
returned session's id differs from the presented one. -/
theorem C10_unknown_session_id (st : SessionStore) (s genId : String)
    (hs : st.sessions.lookup s = Option.none) (hgen : genId ≠ s) :
    (get_or_create_session (some s) genId st).1.session_id = genId ∧
    (get_or_create_session (some s) genId st).1.session_id ≠ s ∧
    (get_or_create_session (some s) genId st).1.turns = [] ∧
    (get_or_create_session (some s) genId st).2.sessions.lookup s = Option.none ∧
    (get_or_create_session (some s) genId st).2.sessions.lookup genId =
      some { session_id := genId, turns := [] } := by
  have hcreate : get_or_create_session (some s) genId st = create_session genId st := by
    simp only [get_or_create_session]
    by_cases h0 : s = ""
    · rw [if_neg (by simp [h0])]
    · rw [if_pos (by simpa using h0), hs]
  rw [hcreate]
  refine ⟨rfl, hgen, rfl, ?_, ?_⟩
  · exact (lookup_pyDictSet_ne st.sessions genId _ s (Ne.symm hgen)).trans hs
  · exact lookup_pyDictSet_self st.sessions genId _

/-- Witness for `C10_unknown_session_id`: an empty store asked for the
unknown id `"stale"` with generated uuid `"fresh-uuid"`. -/
theorem C10_witness :
    (get_or_create_session (some "stale") "fresh-uuid" ⟨[]⟩).1.session_id = "fresh-uuid" ∧
    (get_or_create_session (some "stale") "fresh-uuid" ⟨[]⟩).2.sessions.lookup "stale" =
      Option.none :=
  ⟨(C10_unknown_session_id ⟨[]⟩ "stale" "fresh-uuid" rfl (by decide)).1,
   (C10_unknown_session_id ⟨[]⟩ "stale" "fresh-uuid" rfl (by decide)).2.2.2.1⟩
